import Mathlib

/-!
Verification development for the SleighOS holiday-display core: the log parser
(`parseLogString`), the bounded display log (`appendLog`), the text-source
adapter (`generateStatusBatch` in services/geminiService.ts) and the stream
scheduler (`fetchMoreLogs` / `processNextMessage` in the main component).
Strings are modelled as Lean `String` / `List Char`; JavaScript string methods
(`slice`, `substring`, `indexOf`, `lastIndexOf`, `toLowerCase`, `includes`) are
embedded explicitly below.
-/

/-- Character class of the tag capture group in the regex
`^\[([A-Z0-9_ ]+)\]\s*(.*)` used by `parseLogString`. -/
def isTagChar (c : Char) : Bool :=
  ('A' ≤ c && c ≤ 'Z') || ('0' ≤ c && c ≤ '9') || c = '_' || c = ' '

/-- JavaScript regex `\s` whitespace class (ASCII part plus the Unicode
space characters it also matches). -/
def isJsWs (c : Char) : Bool :=
  c = ' ' || c = '\t' || c = '\n' || c = '\r' ||
  c.toNat = 0x0b || c.toNat = 0x0c || c.toNat = 0xa0 || c.toNat = 0x1680 ||
  (0x2000 ≤ c.toNat && c.toNat ≤ 0x200a) ||
  c.toNat = 0x2028 || c.toNat = 0x2029 || c.toNat = 0x202f ||
  c.toNat = 0x205f || c.toNat = 0x3000 || c.toNat = 0xfeff

/-- JavaScript regex line terminators, which `.` does not match. -/
def isLineTerm (c : Char) : Bool :=
  c = '\n' || c = '\r' || c.toNat = 0x2028 || c.toNat = 0x2029

/-- Matching of the anchored regex `^\[([A-Z0-9_ ]+)\]\s*(.*)` from
`parseLogString`: a leading `[`, a nonempty maximal run of tag characters
(the class excludes `]`, so greedy matching is deterministic), a closing `]`,
a maximal run of `\s`, then the message = the following characters up to the
first line terminator.  Returns the two capture groups, or `none` when the
regex does not match. -/
def tagMatch (cs : List Char) : Option (String × String) :=
  match cs with
  | '[' :: rest =>
    let tag := rest.takeWhile isTagChar
    let rest2 := rest.dropWhile isTagChar
    if tag.isEmpty then none
    else
      match rest2 with
      | ']' :: rest3 =>
        let rest4 := rest3.dropWhile isJsWs
        let msg := rest4.takeWhile (fun c => !isLineTerm c)
        some (String.mk tag, String.mk msg)
      | _ => none
  | _ => none

/-- `startsWithL cs needle`: `needle` is an initial segment of `cs`. -/
def startsWithL : List Char → List Char → Bool
  | _, [] => true
  | [], _ :: _ => false
  | c :: cs, d :: ds => c = d && startsWithL cs ds

/-- `hasSubL needle hay`: `needle` occurs contiguously inside `hay`
(JavaScript `hay.includes(needle)`). -/
def hasSubL (needle : List Char) : List Char → Bool
  | [] => startsWithL [] needle
  | c :: t => startsWithL (c :: t) needle || hasSubL needle t

/-- JavaScript `hay.includes(needle)` on strings. -/
def strHas (hay needle : String) : Bool :=
  hasSubL needle.data hay.data

/-- `message.toLowerCase()` (ASCII case folding; the keyword scan of the
parser only involves ASCII keywords). -/
def lowerL (cs : List Char) : List Char := cs.map Char.toLower

/-- The CRIT keyword test of `parseLogString`:
`message.toLowerCase()` includes `critical`, `fail` or `error`. -/
def hasCritKeyword (message : String) : Bool :=
  hasSubL "critical".data (lowerL message.data) ||
  hasSubL "fail".data (lowerL message.data) ||
  hasSubL "error".data (lowerL message.data)

/-- The WARN keyword test of `parseLogString`:
`message.toLowerCase()` includes `warning` or `detect`. -/
def hasWarnKeyword (message : String) : Bool :=
  hasSubL "warning".data (lowerL message.data) ||
  hasSubL "detect".data (lowerL message.data)

/-- The four severity levels of `LogLevel` in types.ts. -/
inductive LogLevel
  | INFO
  | WARN
  | CRIT
  | SYS
  deriving DecidableEq, Repr, Inhabited

/-- Result of `parseLogString`: a `LogMessage` without `id` and `timestamp`. -/
structure ParsedLog where
  system : String
  message : String
  level : LogLevel
  deriving DecidableEq, Repr

/-- The helper `parseLogString` of the main component: match the tag regex;
on a match infer the level from keywords (CRIT keywords first, then WARN
keywords, then the `SYS` tag, else INFO); on no match return
system `UNK`, level `INFO` and the raw string as message. -/
def parseLogString (raw : String) : ParsedLog :=
  match tagMatch raw.data with
  | some (system, message) =>
    let level : LogLevel :=
      if hasCritKeyword message then .CRIT
      else if hasWarnKeyword message then .WARN
      else if system = "SYS" then .SYS
      else .INFO
    { system := system, message := message, level := level }
  | none => { system := "UNK", message := raw, level := .INFO }

/-- `MAX_LOGS` from the main component. -/
def MAX_LOGS : Nat := 50

/-- The `LogMessage` interface of types.ts. -/
structure LogMessage where
  id : String
  timestamp : String
  level : LogLevel
  message : String
  system : String
  deriving DecidableEq, Repr, Inhabited

/-- JavaScript `arr.slice(-n)` for `n > 0`: the last `n` elements
(the whole array when it is shorter than `n`). -/
def sliceLast {α : Type} (l : List α) (n : Nat) : List α :=
  l.drop (l.length - n)

/-- The `setLogs` updater of the consumer loop:
`[...prev, newLog].slice(-MAX_LOGS)`. -/
def appendLog (prev : List LogMessage) (newLog : LogMessage) : List LogMessage :=
  sliceLast (prev ++ [newLog]) MAX_LOGS

example : parseLogString "[NAV] Waypoint acquired." =
    ⟨"NAV", "Waypoint acquired.", .INFO⟩ := by decide

example : parseLogString "[SYS] Critical failure detected." =
    ⟨"SYS", "Critical failure detected.", .CRIT⟩ := by decide

example : parseLogString "no brackets here" =
    ⟨"UNK", "no brackets here", .INFO⟩ := by decide

/-- Modelled from the spec: the seed corpus `SEED_MESSAGES` of constants.ts
(the file is absent from the sources; the spec describes it as "a static,
pre-defined ordered collection of example log lines in `[TAG] message` form",
of which 5 are sampled per adapter call as prompt examples). -/
def SEED_MESSAGES : List String :=
  [ "[NAV] Waypoint acquired. Rooftop approach vector locked."
  , "[ENG] Buoyancy engine telemetry nominal."
  , "[GIFT] Payload manifest verified against the list. Twice."
  , "[UAS] Drone swarm pre-flight checks green."
  , "[USV] DriX hull integrity at 100 percent."
  , "[ELF] Workshop uplink stable." ]

/-- JSON whitespace accepted between tokens by `JSON.parse`. -/
def isJsonWs (c : Char) : Bool :=
  c = ' ' || c = '\t' || c = '\n' || c = '\r'

/-- Drop leading JSON whitespace. -/
def skipWs (cs : List Char) : List Char := cs.dropWhile isJsonWs

/-- Value of a hexadecimal digit, by code point: `0`-`9` are 48-57,
`A`-`F` are 65-70, `a`-`f` are 97-102. -/
def hexVal (c : Char) : Option Nat :=
  let n := c.toNat
  if 48 ≤ n && n ≤ 57 then some (n - 48)
  else if 65 ≤ n && n ≤ 70 then some (n - 55)
  else if 97 ≤ n && n ≤ 102 then some (n - 87)
  else none

/-- Value of a single-character JSON escape (`\x` for `x` other than `u`). -/
def escTable (e : Char) : Option Char :=
  if e = '"' || e = '\\' || e = '/' then some e
  else if e = 'b' then some '\x08'
  else if e = 'f' then some '\x0c'
  else if e = 'n' then some '\n'
  else if e = 'r' then some '\r'
  else if e = 't' then some '\t'
  else none

/-- Code point of a `\uXXXX` escape, given the four characters after `u`. -/
def hex4 (a b c d : Char) : Option Nat :=
  match hexVal a, hexVal b, hexVal c, hexVal d with
  | some ha, some hb, some hc, some hd =>
    some (((ha * 16 + hb) * 16 + hc) * 16 + hd)
  | _, _, _, _ => none

/-- Parse the body of a JSON string literal (the opening quote already
consumed), returning its value and the remaining characters.  Handles the
standard escapes; `\u` escapes are accepted for scalar values (surrogate
pairs do not occur in the inputs of interest).  `fuel` bounds recursion and
is always supplied larger than the input length. -/
def parseJString (fuel : Nat) (acc : List Char) (cs : List Char) :
    Option (String × List Char) :=
  match fuel, cs with
  | 0, _ => none
  | _, [] => none
  | fuel + 1, c0 :: tl =>
    if c0 = '"' then some (String.mk acc.reverse, tl)
    else if c0 = '\\' then
      match tl with
      | [] => none
      | e :: tl2 =>
        if e = 'u' then
          match tl2 with
          | a :: b :: c :: d :: tl3 =>
            match hex4 a b c d with
            | none => none
            | some n =>
              if n.isValidChar then parseJString fuel (Char.ofNat n :: acc) tl3
              else none
          | _ => none
        else
          match escTable e with
          | none => none
          | some ec => parseJString fuel (ec :: acc) tl2
    else if c0.toNat < 32 then none
    else parseJString fuel (c0 :: acc) tl

/-- Parse the elements of a nonempty JSON array of strings, the opening
bracket already consumed; requires the array to end the input (up to
trailing whitespace), as `JSON.parse` rejects trailing characters. -/
def parseJElems (fuel : Nat) (acc : List String) (cs : List Char) :
    Option (List String) :=
  match fuel with
  | 0 => none
  | fuel + 1 =>
    match skipWs cs with
    | '"' :: rest =>
      match parseJString (rest.length + 1) [] rest with
      | some (s, rest2) =>
        match skipWs rest2 with
        | ',' :: rest3 => parseJElems fuel (s :: acc) rest3
        | ']' :: rest4 =>
          if (skipWs rest4).isEmpty then some (s :: acc).reverse else none
        | _ => none
      | none => none
    | _ => none

/-- `JSON.parse(jsonText) as string[]`, restricted to its use in the
adapter: succeeds exactly when the whole input is a JSON array of strings
(the generative response is requested, and cast, as an array of strings;
other JSON values are outside the behaviour exercised here). -/
def parseJsonStringArray (s : String) : Option (List String) :=
  match skipWs s.data with
  | '[' :: rest =>
    match skipWs rest with
    | ']' :: rest2 => if (skipWs rest2).isEmpty then some [] else none
    | _ => parseJElems (rest.length + 1) [] rest
  | _ => none

/-- JavaScript `cs.indexOf(c)`, as `none` instead of `-1`. -/
def firstIdx (cs : List Char) (c : Char) : Option Nat :=
  match cs with
  | [] => none
  | d :: t => if d = c then some 0 else (firstIdx t c).map (· + 1)

/-- JavaScript `cs.lastIndexOf(c)`, as `none` instead of `-1`. -/
def lastIdx (cs : List Char) (c : Char) : Option Nat :=
  match cs with
  | [] => none
  | d :: t =>
    match lastIdx t c with
    | some i => some (i + 1)
    | none => if d = c then some 0 else none

/-- JavaScript `s.substring(a, b)`: clamps both indices to the string length
and swaps them when `a > b`. -/
def jsSubstring (s : String) (a b : Nat) : String :=
  String.mk ((s.data.take (max a b)).drop (min a b))

/-- The sanitization step of `generateStatusBatch`: when both a `[` and a `]`
occur in the response text, slice from the first `[` to the last `]`
(inclusive); otherwise leave the text unchanged. -/
def sanitizeText (t : String) : String :=
  match firstIdx t.data '[', lastIdx t.data ']' with
  | some i, some j => jsSubstring t i (j + 1)
  | _, _ => t

/-- Return type of `generateStatusBatch`: `{ logs: string[], error: boolean }`.
`error` is the degraded indicator of the spec. -/
structure AdapterResult where
  logs : List String
  error : Bool
  deriving DecidableEq, Repr

/-- Environment of one adapter call, resolving its two external effects:
either the service call succeeds with `response.text` (`none` models an
absent text), or it throws, summarized by `JSON.stringify(error)` together
with the result `shuffled` of `[...SEED_MESSAGES].sort(() => 0.5 - Math.random())`
(a permutation of the corpus, constrained as such in the theorems). -/
inductive GenOutcome
  | success (text : Option String)
  | failure (errorMessage : String) (shuffled : List String)
  deriving Repr

/-- The fixed diagnostic pair returned when no API key is configured. -/
def KEY_MISSING_LOGS : List String :=
  [ "[SYS] API KEY MISSING. PLEASE CONFIGURE SleighOS ENV."
  , "[ERR] MAGIC FLUX DISCONNECTED." ]

/-- The synthetic line returned on a non-rate-limit request failure. -/
def INTERFERENCE_LOG : String :=
  "[ERR] INTERFERENCE DETECTED IN SECTOR 12. RETRYING..."

/-- The synthetic line returned when the sanitized response fails to parse. -/
def PARSE_ERROR_LOG : String :=
  "[WARN] DATA PARSING ERROR. RECALIBRATING..."

/-- The rate-limit test of the catch branch:
`JSON.stringify(error)` includes `429` or `RESOURCE_EXHAUSTED`. -/
def isRateLimitError (errorMessage : String) : Bool :=
  strHas errorMessage "429" || strHas errorMessage "RESOURCE_EXHAUSTED"

/-- `generateStatusBatch` of services/geminiService.ts.  `currentContext`
only shapes the request prompt, never the returned value, so it is unused
on the right-hand side; the try/catch absorbs every request failure, making
the function total (no exception reaches the caller).  An empty or absent
`response.text` (both falsy in `if (!jsonText)`) returns no lines and
`error := false`; otherwise the text is sanitized and parsed; on a thrown
error, a rate-limit signature substitutes the first `count` entries of the
shuffled seed corpus, and any other failure yields the interference line. -/
def generateStatusBatch (apiKey : String) (currentContext : List String)
    (count : Nat) (outcome : GenOutcome) : AdapterResult :=
  if apiKey = "" then { logs := KEY_MISSING_LOGS, error := true }
  else
    match outcome with
    | .success none => { logs := [], error := false }
    | .success (some text) =>
      if text = "" then { logs := [], error := false }
      else
        match parseJsonStringArray (sanitizeText text) with
        | some logs => { logs := logs, error := false }
        | none => { logs := [PARSE_ERROR_LOG], error := true }
    | .failure errorMessage shuffled =>
      if isRateLimitError errorMessage then
        { logs := shuffled.take count, error := true }
      else
        { logs := [INTERFERENCE_LOG], error := true }

example : generateStatusBatch "k" [] 1
    (.success (some "Sure! [\"[NAV] ok\", \"[ENG] go\"] thanks")) =
    ⟨["[NAV] ok", "[ENG] go"], false⟩ := by decide

example : generateStatusBatch "" [] 3 (.failure "429" []) =
    ⟨KEY_MISSING_LOGS, true⟩ := by decide

example : generateStatusBatch "k" [] 1 (.failure "code 429" SEED_MESSAGES) =
    ⟨SEED_MESSAGES.take 1, true⟩ := by decide

/-- Claim C2: every append to the display log leaves at most `MAX_LOGS` (50)
entries, and the result is exactly the appended list with its oldest entries
dropped from the head, so eviction is FIFO and the insertion order of the
remaining entries is preserved. -/
theorem displayLog_capacity_fifo (prev : List LogMessage) (newLog : LogMessage) :
    (appendLog prev newLog).length ≤ MAX_LOGS ∧
    appendLog prev newLog = (prev ++ [newLog]).drop (prev.length + 1 - MAX_LOGS) := by
  constructor
  · simp only [appendLog, sliceLast, MAX_LOGS, List.length_drop,
      List.length_append, List.length_cons, List.length_nil]
    omega
  · simp [appendLog, sliceLast, MAX_LOGS]

/-- Claim C8 (amended statement not needed; as stated): a raw string on which
the tag regex does not match parses to system `UNK`, level `INFO` and the
whole raw string, unmodified, as message. -/
theorem unmatched_raw_unk (raw : String) (h : tagMatch raw.data = none) :
    parseLogString raw = ⟨"UNK", raw, LogLevel.INFO⟩ := by
  simp [parseLogString, h]

/-- Witness for `unmatched_raw_unk` at the spec example "no brackets here". -/
theorem unmatched_raw_unk_witness :
    parseLogString "no brackets here" = ⟨"UNK", "no brackets here", LogLevel.INFO⟩ :=
  unmatched_raw_unk "no brackets here" (by decide)

/-- Claim C7, counterexample to the claim as stated: the raw line
"critical detect" does not match the tag pattern, so its parsed message (the
whole raw line) contains both a CRIT keyword ("critical") and a WARN keyword
("detect"), yet the parser assigns level `INFO`, not `CRIT`. -/
theorem crit_claim_counterexample :
    hasCritKeyword (parseLogString "critical detect").message = true ∧
    hasWarnKeyword (parseLogString "critical detect").message = true ∧
    ¬ (parseLogString "critical detect").level = LogLevel.CRIT := by
  decide

/-- Claim C7, amended: for every raw line that matches the leading
bracketed-tag pattern and whose message contains a CRIT keyword and a WARN
keyword, the parser assigns level `CRIT` — the CRIT keywords are checked
before the WARN keywords. -/
theorem crit_overrides_warn (raw system message : String)
    (hm : tagMatch raw.data = some (system, message))
    (hc : hasCritKeyword message = true)
    (hw : hasWarnKeyword message = true) :
    (parseLogString raw).level = LogLevel.CRIT := by
  simp [parseLogString, hm, hc]

/-- Witness for `crit_overrides_warn` at the spec example
"[SYS] Critical failure detected." (message contains "critical", "fail" and
"detect"). -/
theorem crit_overrides_warn_witness :
    (parseLogString "[SYS] Critical failure detected.").level = LogLevel.CRIT :=
  crit_overrides_warn "[SYS] Critical failure detected."
    "SYS" "Critical failure detected." (by decide) (by decide) (by decide)

/-- Claim C9: with no credential configured (`apiKey = ""`), the adapter
returns the fixed diagnostic pair with the degraded flag set, uniformly in
the call environment — the result does not depend on `outcome`, which is the
formal counterpart of "no network attempt is made". -/
theorem missing_key_diagnostics (ctx : List String) (count : Nat)
    (outcome : GenOutcome) :
    generateStatusBatch "" ctx count outcome = ⟨KEY_MISSING_LOGS, true⟩ := by
  simp [generateStatusBatch]

/-- Claim C10: when the service call succeeds but `response.text` is absent
or empty (both falsy), the adapter returns no lines and `error = false`:
a silent no-op, not a failure. -/
theorem empty_response_noop (apiKey : String) (ctx : List String) (count : Nat)
    (hk : ¬ apiKey = "") :
    generateStatusBatch apiKey ctx count (.success none) = ⟨[], false⟩ ∧
    generateStatusBatch apiKey ctx count (.success (some "")) = ⟨[], false⟩ := by
  constructor <;> simp [generateStatusBatch, hk]

/-- Witness for `empty_response_noop` at a concrete key and call. -/
theorem empty_response_noop_witness :
    generateStatusBatch "k" [] 1 (.success none) = ⟨[], false⟩ ∧
    generateStatusBatch "k" [] 1 (.success (some "")) = ⟨[], false⟩ :=
  empty_response_noop "k" [] 1 (by decide)

/-- Claim C5: on a request failure carrying a rate-limit / resource-exhaustion
signature, the adapter returns exactly `count` lines of the shuffled seed
corpus (a permutation of `SEED_MESSAGES`, whose length bounds `count` for
every call the program makes) with the degraded flag set; on any other
failure it returns the single synthetic interference line with the degraded
flag set.  `generateStatusBatch` is a total function — the try/catch of the
source absorbs every failure, so no exception reaches the caller. -/
theorem rate_limit_fallback (apiKey : String) (ctx : List String) (count : Nat)
    (errMsg : String) (shuffled : List String)
    (hk : ¬ apiKey = "") (hperm : shuffled.Perm SEED_MESSAGES)
    (hcount : count ≤ SEED_MESSAGES.length) :
    (isRateLimitError errMsg = true →
      generateStatusBatch apiKey ctx count (.failure errMsg shuffled) =
        ⟨shuffled.take count, true⟩ ∧
      (shuffled.take count).length = count ∧
      ∀ l ∈ shuffled.take count, l ∈ SEED_MESSAGES) ∧
    (isRateLimitError errMsg = false →
      generateStatusBatch apiKey ctx count (.failure errMsg shuffled) =
        ⟨[INTERFERENCE_LOG], true⟩) := by
  constructor
  · intro hrl
    refine ⟨by simp [generateStatusBatch, hk, hrl], ?_, ?_⟩
    · rw [List.length_take]
      have hlen := hperm.length_eq
      omega
    · intro l hl
      exact hperm.mem_iff.mp (List.take_subset _ _ hl)
  · intro hrl
    simp [generateStatusBatch, hk, hrl]

/-- Witness for `rate_limit_fallback`: a rate-limited call returns exactly one
seed line and degraded, a differently failed call returns the interference
line and degraded. -/
theorem rate_limit_fallback_witness :
    generateStatusBatch "k" [] 1 (.failure "HTTP 429" SEED_MESSAGES) =
      ⟨SEED_MESSAGES.take 1, true⟩ ∧
    generateStatusBatch "k" [] 1 (.failure "boom" SEED_MESSAGES) =
      ⟨[INTERFERENCE_LOG], true⟩ :=
  ⟨((rate_limit_fallback "k" [] 1 "HTTP 429" SEED_MESSAGES (by decide)
      (List.Perm.refl _) (by decide)).1 (by decide)).1,
   (rate_limit_fallback "k" [] 1 "boom" SEED_MESSAGES (by decide)
      (List.Perm.refl _) (by decide)).2 (by decide)⟩

/-- Claim C6: whenever the response text contains a `[` and a `]`, the adapter
slices it from the first `[` to the last `]` before parsing (first conjunct);
in particular the response text "Sure! [\"[NAV] ok\", \"[ENG] go\"] thanks"
yields exactly the two lines "[NAV] ok" and "[ENG] go" (second conjunct). -/
theorem sanitize_slices_then_parses (apiKey : String) (ctx : List String)
    (t : String) (i j : Nat) (hk : ¬ apiKey = "")
    (hi : firstIdx t.data '[' = some i) (hj : lastIdx t.data ']' = some j) :
    sanitizeText t = jsSubstring t i (j + 1) ∧
    generateStatusBatch apiKey ctx 1
        (.success (some "Sure! [\"[NAV] ok\", \"[ENG] go\"] thanks")) =
      ⟨["[NAV] ok", "[ENG] go"], false⟩ := by
  constructor
  · simp [sanitizeText, hi, hj]
  · simp only [generateStatusBatch, if_neg hk]
    decide

/-- Witness for `sanitize_slices_then_parses` at the spec example response:
the first `[` is at index 6 and the last `]` at index 29. -/
theorem sanitize_slices_then_parses_witness :
    sanitizeText "Sure! [\"[NAV] ok\", \"[ENG] go\"] thanks" =
      jsSubstring "Sure! [\"[NAV] ok\", \"[ENG] go\"] thanks" 6 30 ∧
    generateStatusBatch "k" [] 1
        (.success (some "Sure! [\"[NAV] ok\", \"[ENG] go\"] thanks")) =
      ⟨["[NAV] ok", "[ENG] go"], false⟩ :=
  sanitize_slices_then_parses "k" [] "Sure! [\"[NAV] ok\", \"[ENG] go\"] thanks"
    6 29 (by decide) (by decide) (by decide)

/-- The scheduler state of the main component, at the sequential abstraction
of spec section 5 (single logical thread; a fetch cycle completes atomically
before the next action, so state values and their mirror refs agree and are
represented once). -/
structure SchedState where
  logs : List LogMessage
  buffer : List String
  useGeminiNext : Bool
  aiError : Bool
  isLoading : Bool
  deriving DecidableEq, Repr

/-- Environment of one fetch cycle, resolving its random choices: the
adapter-call outcome (used on a live-source turn) and the seed index drawn
by `Math.floor(Math.random() * SEED_MESSAGES.length)` (used on a seed turn). -/
structure FetchEnv where
  outcome : GenOutcome
  seedIdx : Nat

/-- Formatting of a recent display-log entry into the adapter context. -/
def formatContext (l : LogMessage) : String :=
  "[" ++ l.system ++ "] " ++ l.message

/-- `fetchMoreLogs` of the main component (sequential abstraction): guard on
the loading flag; on a live-source turn call the adapter with the last 5 log
entries and `count = 1`, record the degraded flag as `aiError` and append the
returned lines to the buffer; on a seed turn append one random seed line and
leave `aiError` unchanged; then toggle `useGeminiNext` unconditionally and
clear the loading flag. -/
def fetchMoreLogs (apiKey : String) (env : FetchEnv) (s : SchedState) :
    SchedState :=
  if s.isLoading then s
  else
    let s1 : SchedState := { s with isLoading := true }
    let s2 : SchedState :=
      if s1.useGeminiNext then
        let currentMessages := (sliceLast s1.logs 5).map formatContext
        let r := generateStatusBatch apiKey currentMessages 1 env.outcome
        { s1 with aiError := r.error, buffer := s1.buffer ++ r.logs }
      else
        let randomMsg := SEED_MESSAGES.getD (env.seedIdx % SEED_MESSAGES.length) ""
        { s1 with buffer := s1.buffer ++ [randomMsg] }
    { s2 with useGeminiNext := !s2.useGeminiNext, isLoading := false }

/-- A completed fetch cycle toggles the alternation flag, whatever its
outcome. -/
theorem fetchMoreLogs_toggle (apiKey : String) (env : FetchEnv) (s : SchedState)
    (hload : s.isLoading = false) :
    (fetchMoreLogs apiKey env s).useGeminiNext = !s.useGeminiNext := by
  cases h : s.useGeminiNext <;> simp [fetchMoreLogs, hload, h]

/-- A completed fetch cycle leaves the loading flag cleared. -/
theorem fetchMoreLogs_notLoading (apiKey : String) (env : FetchEnv)
    (s : SchedState) (hload : s.isLoading = false) :
    (fetchMoreLogs apiKey env s).isLoading = false := by
  cases h : s.useGeminiNext <;> simp [fetchMoreLogs, hload, h]

/-- The source used by each fetch cycle of a run: `true` for the live
(Gemini) source, `false` for the seed source.  Cycle `n` reads the flag left
by cycle `n - 1`. -/
def sourcesUsed (apiKey : String) (s : SchedState) :
    List FetchEnv → List Bool
  | [] => []
  | env :: rest =>
    s.useGeminiNext :: sourcesUsed apiKey (fetchMoreLogs apiKey env s) rest

/-- The strictly alternating Boolean sequence of a given length. -/
def altList (b : Bool) : Nat → List Bool
  | 0 => []
  | n + 1 => b :: altList (!b) n

/-- Whatever the outcomes, the sources a run of fetch cycles uses form the
strictly alternating sequence starting at the initial flag. -/
theorem sourcesUsed_eq_altList (apiKey : String) :
    ∀ (envs : List FetchEnv) (s : SchedState), s.isLoading = false →
      sourcesUsed apiKey s envs = altList s.useGeminiNext envs.length
  | [], s, _ => by simp [sourcesUsed, altList]
  | env :: rest, s, hload => by
    simp only [sourcesUsed, List.length_cons, altList]
    rw [sourcesUsed_eq_altList apiKey rest (fetchMoreLogs apiKey env s)
        (fetchMoreLogs_notLoading apiKey env s hload),
      fetchMoreLogs_toggle apiKey env s hload]

/-- Consecutive entries of the alternating sequence differ. -/
theorem altList_consec :
    ∀ (n i : Nat) (b : Bool), i + 1 < n →
      (altList b n).getD (i + 1) false = !((altList b n).getD i false)
  | 0, _, _, h => absurd h (by omega)
  | n + 1, 0, b, h => by
    cases n with
    | zero => omega
    | succ m => simp [altList]
  | n + 1, i + 1, b, h => by
    simp only [altList, List.getD_cons_succ]
    exact altList_consec n i (!b) (by omega)

/-- Claim C4: in a run of sequentially completed fetch cycles, consecutive
cycles use strictly alternating sources (second conjunct), and the
alternation flag toggles after every completed cycle regardless of its
outcome — success, rate-limited, failed or degraded (first conjunct). -/
theorem fetch_alternation (apiKey : String) (s : SchedState)
    (envs : List FetchEnv) (i : Nat)
    (hload : s.isLoading = false) (hi : i + 1 < envs.length) :
    (∀ env, (fetchMoreLogs apiKey env s).useGeminiNext = !s.useGeminiNext) ∧
    (sourcesUsed apiKey s envs).getD (i + 1) false =
      !((sourcesUsed apiKey s envs).getD i false) := by
  refine ⟨fun env => fetchMoreLogs_toggle apiKey env s hload, ?_⟩
  rw [sourcesUsed_eq_altList apiKey envs s hload]
  exact altList_consec envs.length i s.useGeminiNext hi

/-- Witness for `fetch_alternation`: a three-cycle run whose outcomes are a
rate-limited failure, a success and another failure; the first two cycles
use alternating sources. -/
theorem fetch_alternation_witness :
    (sourcesUsed "k" ⟨[], [], true, false, false⟩
        [⟨.failure "429" SEED_MESSAGES, 0⟩, ⟨.success none, 0⟩,
         ⟨.failure "x" [], 0⟩]).getD 1 false =
      !((sourcesUsed "k" ⟨[], [], true, false, false⟩
        [⟨.failure "429" SEED_MESSAGES, 0⟩, ⟨.success none, 0⟩,
         ⟨.failure "x" [], 0⟩]).getD 0 false) :=
  (fetch_alternation "k" ⟨[], [], true, false, false⟩
    [⟨.failure "429" SEED_MESSAGES, 0⟩, ⟨.success none, 0⟩,
     ⟨.failure "x" [], 0⟩] 0 rfl (by decide)).2

/-- Environment of one consumer-loop tick: the fresh id drawn by
`Math.random().toString(36).substr(2, 9)` (the id is a pure function of the
random draw, so the draw is modelled by the id string it produces), the
display timestamp, and the environments of the up to two fetch cycles the
tick may invoke (the empty-buffer fetch and the low-water prefetch). -/
structure TickEnv where
  newId : String
  ts : String
  fetchEmpty : FetchEnv
  fetchLow : FetchEnv

/-- One tick of `processNextMessage` (sequential abstraction), returning the
new state and the log entry created, if any.  A nonempty buffer is consumed:
the head raw line is parsed, wrapped with the drawn id and timestamp, and
appended to the display log; `currentBufferLen` becomes the new buffer
length.  An empty buffer triggers the fetch cycle instead, with
`currentBufferLen` keeping its stale value 0.  Afterwards, if
`currentBufferLen < 2` and nothing is loading, the prefetch cycle runs. -/
def tick (apiKey : String) (env : TickEnv) (s : SchedState) :
    SchedState × Option LogMessage :=
  if s.buffer.isEmpty then
    let s1 := fetchMoreLogs apiKey env.fetchEmpty s
    let s2 := if decide (0 < 2) && !s1.isLoading then
        fetchMoreLogs apiKey env.fetchLow s1
      else s1
    (s2, none)
  else
    let nextRaw := s.buffer.headD ""
    let newBuffer := s.buffer.drop 1
    let parsed := parseLogString nextRaw
    let newLog : LogMessage :=
      { id := env.newId, timestamp := env.ts,
        level := parsed.level, message := parsed.message,
        system := parsed.system }
    let s1 : SchedState :=
      { s with buffer := newBuffer, logs := appendLog s.logs newLog }
    let s2 := if decide (newBuffer.length < 2) && !s1.isLoading then
        fetchMoreLogs apiKey env.fetchLow s1
      else s1
    (s2, some newLog)

/-- A run of ticks, collecting every log entry the run creates. -/
def runTicks (apiKey : String) :
    List TickEnv → SchedState → SchedState × List LogMessage
  | [], s => (s, [])
  | env :: rest, s =>
    let r := tick apiKey env s
    let rr := runTicks apiKey rest r.1
    (rr.1, r.2.toList ++ rr.2)

/-- A run with two equal id draws, as `Math.random` may repeat: both ticks
consume a buffered line and stamp their entry with the same id "dup". -/
def collisionRun : List LogMessage :=
  (runTicks "k"
    [⟨"dup", "t1", ⟨.success none, 0⟩, ⟨.success none, 0⟩⟩,
     ⟨"dup", "t2", ⟨.success none, 0⟩, ⟨.success none, 0⟩⟩]
    ⟨[], ["[NAV] a", "[ENG] b", "[SYS] c"], true, false, false⟩).2

/-- Claim C3, counterexample to the claim as stated: ids are produced by
`Math.random().toString(36).substr(2, 9)` with no uniqueness check, so a run
in which the random draw repeats creates two distinct log entries carrying
the same id. -/
theorem id_collision_counterexample :
    collisionRun.length = 2 ∧
    ¬ collisionRun.getD 0 default = collisionRun.getD 1 default ∧
    (collisionRun.getD 0 default).id = (collisionRun.getD 1 default).id := by
  decide

/-- The ids of the entries a run creates are drawn, in order, from the id
draws of its ticks (an empty-buffer tick draws nothing). -/
theorem created_ids_sublist (apiKey : String) :
    ∀ (envs : List TickEnv) (s : SchedState),
      ((runTicks apiKey envs s).2.map LogMessage.id).Sublist
        (envs.map TickEnv.newId)
  | [], _ => by simp [runTicks]
  | env :: rest, s => by
    by_cases hb : s.buffer.isEmpty
    · simp only [runTicks, tick, hb, if_pos, List.map_cons]
      exact (created_ids_sublist apiKey rest _).cons _
    · simp only [runTicks, tick, hb, if_neg, List.map_cons, Option.toList_some,
        List.cons_append, List.nil_append, List.map_cons, Bool.false_eq_true,
        if_false]
      exact (created_ids_sublist apiKey rest _).cons₂ _

/-- Claim C3, amended: entry ids are inherited from the per-tick random
draws, so whenever the draws of a run are pairwise distinct, the entries the
run creates carry pairwise distinct ids. -/
theorem distinct_draws_distinct_ids (apiKey : String) (envs : List TickEnv)
    (s : SchedState)
    (h : (envs.map TickEnv.newId).Pairwise (fun a b => ¬ a = b)) :
    ((runTicks apiKey envs s).2.map LogMessage.id).Pairwise
      (fun a b => ¬ a = b) :=
  h.sublist (created_ids_sublist apiKey envs s)

/-- Witness for `distinct_draws_distinct_ids`: a two-tick run with distinct
draws creates entries with pairwise distinct ids. -/
theorem distinct_draws_distinct_ids_witness :
    (((runTicks "k"
        [⟨"a1b2c3d4e", "t1", ⟨.success none, 0⟩, ⟨.success none, 0⟩⟩,
         ⟨"f5g6h7i8j", "t2", ⟨.success none, 0⟩, ⟨.success none, 0⟩⟩]
        ⟨[], ["[NAV] a", "[ENG] b", "[SYS] c"], true, false, false⟩).2).map
      LogMessage.id).Pairwise (fun a b => ¬ a = b) :=
  distinct_draws_distinct_ids "k"
    [⟨"a1b2c3d4e", "t1", ⟨.success none, 0⟩, ⟨.success none, 0⟩⟩,
     ⟨"f5g6h7i8j", "t2", ⟨.success none, 0⟩, ⟨.success none, 0⟩⟩]
    ⟨[], ["[NAV] a", "[ENG] b", "[SYS] c"], true, false, false⟩ (by decide)

/-- State of the component during one synchronous tick execution, with React
state and its mirror refs kept apart: `setState` calls (`setBuffer`,
`setIsLoading`, `setLogs`) update the state fields, while `bufferRef` and
`isLoadingRef` are synced from them only by passive `useEffect` hooks, which
React runs after the commit that follows the current task — never inside the
tick's synchronous execution.  `useGeminiNext` is itself a ref and is mutated
synchronously.  `inFlight` counts the live-source adapter calls that have
been started (their `await generateStatusBatch` reached) and whose responses
are still outstanding. -/
structure AsyncState where
  buffer : List String
  bufferRef : List String
  isLoading : Bool
  isLoadingRef : Bool
  logs : List LogMessage
  useGeminiNext : Bool
  inFlight : Nat
  deriving DecidableEq, Repr

/-- The synchronous prefix of a `fetchMoreLogs` invocation, up to its first
suspension point.  The guard reads `isLoadingRef.current`; `setIsLoading(true)`
updates only the `isLoading` state, not the ref.  A live-source turn then
suspends at `await generateStatusBatch(...)`, leaving the call in flight with
the toggle and the `setIsLoading(false)` still pending in its continuation; a
seed turn has no `await` and runs to completion: it enqueues the seed line
(via `setBuffer`, a state update), toggles the flag and clears the loading
state. -/
def fetchMoreLogsCall (env : FetchEnv) (s : AsyncState) : AsyncState :=
  if s.isLoadingRef then s
  else
    let s1 : AsyncState := { s with isLoading := true }
    if s1.useGeminiNext then
      { s1 with inFlight := s1.inFlight + 1 }
    else
      let randomMsg := SEED_MESSAGES.getD (env.seedIdx % SEED_MESSAGES.length) ""
      { s1 with buffer := s1.buffer ++ [randomMsg],
                useGeminiNext := !s1.useGeminiNext,
                isLoading := false }

/-- One synchronous execution of `processNextMessage` at ref-accurate
granularity.  `currentBufferLen` is read from `bufferRef`; when the buffer is
nonempty the head line is consumed (`setBuffer` and `setLogs` update state
only) and `currentBufferLen` is reassigned the new length, otherwise the
fetch cycle is invoked and `currentBufferLen` keeps its stale value 0.  The
low-water check then reads `isLoadingRef.current`, which no `setIsLoading`
of this same tick has reached yet. -/
def tickAsync (env : TickEnv) (s : AsyncState) : AsyncState :=
  if s.bufferRef.isEmpty then
    let s1 := fetchMoreLogsCall env.fetchEmpty s
    if decide (s.bufferRef.length < 2) && !s1.isLoadingRef then
      fetchMoreLogsCall env.fetchLow s1
    else s1
  else
    let nextRaw := s.bufferRef.headD ""
    let newBuffer := s.bufferRef.drop 1
    let parsed := parseLogString nextRaw
    let newLog : LogMessage :=
      { id := env.newId, timestamp := env.ts,
        level := parsed.level, message := parsed.message,
        system := parsed.system }
    let s1 : AsyncState :=
      { s with buffer := newBuffer, logs := appendLog s.logs newLog }
    if decide (newBuffer.length < 2) && !s1.isLoadingRef then
      fetchMoreLogsCall env.fetchLow s1
    else s1

/-- Claim C1, the code evaluated at the failing input: a tick that fires with
an empty buffer, no call outstanding and the alternation flag on the live
source (the initial state of every run) starts the empty-buffer fetch cycle
and then the low-water prefetch cycle as well — both guard checks read the
stale `isLoadingRef`, which the passive sync effect has not yet updated — so
two live-source fetch cycles are in flight at once, where the claim allows
at most one. -/
theorem double_fetch_in_flight :
    (tickAsync ⟨"a1b2c3d4e", "t0", ⟨.success none, 0⟩, ⟨.success none, 0⟩⟩
      ⟨[], [], false, false, [], true, 0⟩).inFlight = 2 := by
  decide
